import Mathlib

/-!
Verification development for the swi-tools signing/verification core
(`switools/crc32collision.py`, `switools/swisignature.py`,
`switools/verifyswi.py`, `switools/signaturelib.py`).

Byte buffers are modelled as `List Nat` (each element a byte value),
machine integers as `Nat` with explicit reductions modulo `2 ^ 32`
where the Python code masks with `0xffffffff`.
-/

namespace SwiTools

/-! ## Definitions: crc32collision.py -/

/-- `CRCPOLY` from crc32collision.py (reflected CRC-32 polynomial). -/
def CRCPOLY : Nat := 0xedb88320

/-- `CRCINV` from crc32collision.py (inverse used by the reverse iteration). -/
def CRCINV : Nat := 0x5b358fd3

/-- One zero-input step of the reflected CRC-32 shift register: the loop body
`newCrc = (newCrc >> 1) ^ CRCPOLY` if the low bit is set, else `newCrc >> 1`,
shared by `binascii.crc32`'s bit-level update and by `crcfix`'s loop. -/
def crcStep (r : Nat) : Nat :=
  if r &&& 1 ≠ 0 then (r >>> 1) ^^^ CRCPOLY else r >>> 1

/-- `n` iterations of `crcStep`. -/
def crcSteps : Nat → Nat → Nat
  | 0, r => r
  | n + 1, r => crcSteps n (crcStep r)

/-- `binascii.crc32`'s per-byte update of the raw register: xor the byte into
the low bits, then run 8 register steps. -/
def crc32UpdateByte (r b : Nat) : Nat := crcSteps 8 (r ^^^ b)

/-- The raw CRC-32 register after processing `data`, starting from the
standard preset `0xffffffff`. -/
def crc32Raw (data : List Nat) : Nat := data.foldl crc32UpdateByte 0xffffffff

/-- `binascii.crc32 data & 0xffffffff`: raw register with the standard
final xor. -/
def crc32 (data : List Nat) : Nat := crc32Raw data ^^^ 0xffffffff

/-- The 32-iteration reverse loop of `crcfix`: state `newCrc`, consuming the
bits of `toMatch` least-significant first. -/
def crcfixLoop : Nat → Nat → Nat → Nat
  | 0, newCrc, _ => newCrc
  | n + 1, newCrc, toMatch =>
      crcfixLoop n
        (if toMatch &&& 1 ≠ 0 then crcStep newCrc ^^^ CRCINV else crcStep newCrc)
        (toMatch >>> 1)

/-- `crcfix( toMatch, toChange )` from crc32collision.py. -/
def crcfix (toMatch toChange : Nat) : Nat :=
  crcfixLoop 32 0 (toMatch ^^^ 0xffffffff) ^^^ (toChange ^^^ 0xffffffff)

/-- `matchingBytes( crcToMatch, crcToChange )` from crc32collision.py.
`none` models the `checkCrc32Value` assertion failing (input out of the
`[0, 2^32-1]` range); otherwise the four suffix bytes, least significant
first, as built by the `for i in range(0, 4)` loop. -/
def matchingBytes (crcToMatch crcToChange : Nat) : Option (List Nat) :=
  if crcToMatch < 2 ^ 32 ∧ crcToChange < 2 ^ 32 then
    some ((List.range 4).map fun i => (crcfix crcToMatch crcToChange >>> (i * 8)) &&& 0xff)
  else none

/-! ## Definitions: streamed digest input (verifyswi.py swiSignatureValid,
swisignature.py generateHash) -/

/-- `BLOCK_SIZE` used by `swiSignatureValid` (and the default `blockSize` of
`generateHash`). -/
def BLOCK_SIZE : Nat := 65536

/-- `f.read( n )` on a file whose bytes are `file` and whose read position is
`pos`: the bytes returned and the new file position. -/
def readN (file : List Nat) (pos n : Nat) : List Nat × Nat :=
  ((file.drop pos).take n, min (pos + n) file.length)

/-- The `while offset < swiSignature.offset` loop of `swiSignatureValid`:
the bytes fed to `verify_update` before the signature member is reached, and
the file position when the loop exits. `offset` is the Python loop counter,
`pos` the real file position (both 0 on entry). -/
def feedUpTo (file : List Nat) (pos offset sigOffset : Nat) : List Nat × Nat :=
  if h : offset < sigOffset then
    let numBytes := if offset + BLOCK_SIZE < sigOffset then BLOCK_SIZE else sigOffset - offset
    let r := readN file pos numBytes
    let rest := feedUpTo file r.2 (offset + numBytes) sigOffset
    (r.1 ++ rest.1, rest.2)
  else ([], pos)
termination_by sigOffset - offset
decreasing_by
  simp only [BLOCK_SIZE]
  split <;> omega

/-- The `for block in iter( lambda: swi.read( BLOCK_SIZE ), b'' )` loop:
bytes read from position `pos` to end of file, in `BLOCK_SIZE` blocks. -/
def readBlocks (file : List Nat) (pos : Nat) : List Nat :=
  if h : (readN file pos BLOCK_SIZE).1 = [] then []
  else (readN file pos BLOCK_SIZE).1 ++ readBlocks file (readN file pos BLOCK_SIZE).2
termination_by file.length - pos
decreasing_by
  simp only [readN] at h ⊢
  have hpos : pos < file.length := by
    by_contra hge
    apply h
    rw [List.drop_eq_nil_of_le (by omega), List.take_nil]
  simp only [BLOCK_SIZE]
  omega

/-- The byte stream `swiSignatureValid` feeds into `verify_update` for a
signature member at offset `sigOffset` of size `size`: the prefix up to the
member's offset, then `size` zero bytes, then — after
`seek( size, os.SEEK_CUR )` — the rest of the file. -/
def verifyFeed (file : List Nat) (sigOffset size : Nat) : List Nat :=
  (feedUpTo file 0 0 sigOffset).1 ++ List.replicate size 0 ++
    readBlocks file ((feedUpTo file 0 0 sigOffset).2 + size)

/-- The byte stream `generateHash` feeds into `sha256.update`: the whole file
read in `BLOCK_SIZE` blocks from position 0. -/
def generateHashFeed (file : List Nat) : List Nat := readBlocks file 0

/-! ## Definitions: signature record serialization (swisignature.py
`SwiSignature.__repr__` / `SwiSignature.getBytes`) -/

/-- UTF-8 bytes of an ASCII string (all record labels are ASCII, so the byte
length equals the character count). -/
def asciiBytes (s : String) : List Nat := s.data.map Char.toNat

/-- `SIGN_VERSION` from swisignature.py. -/
def SIGN_VERSION : Nat := 1

/-- `SIGN_HASH` from swisignature.py, as bytes. -/
def SIGN_HASH : List Nat := asciiBytes "SHA-256"

/-- `SWI_SIGNATURE_MAX_SIZE` from swisignature.py. -/
def SWI_SIGNATURE_MAX_SIZE : Nat := 8192

/-- The `SWI_SIGN_RESULT` outcome codes from swisignature.py. -/
def SWI_SIGN_RESULT_SUCCESS : Nat := 0

def SWI_SIGN_RESULT_ALREADY_SIGNED : Nat := 1

def SWI_SIGN_RESULT_ERROR_FAIL_VERIFICATION : Nat := 2

def SWI_SIGN_RESULT_ERROR_NO_NULL_SIG : Nat := 3

def SWI_SIGN_RESULT_ERROR_NOT_A_SWI : Nat := 4

def SWI_SIGN_RESULT_ERROR_INPUT_FILES : Nat := 5

def SWI_SIGN_RESULT_ERROR_NO_SIGNATURE_FILE_PROVIDED : Nat := 6

def SWI_SIGN_RESULT_ERROR_NO_SIGNING_SERVICE : Nat := 7

def SWI_SIGN_RESULT_ERROR_SIGNING_SERVICE_FAILED : Nat := 8

def SWI_SIGN_RESULT_ERROR_SIGNATURE_INSERTION_FAILED : Nat := 9

def SWI_SIGN_RESULT_ERROR_SIGNATURE_EXTRACTION_FAILED : Nat := 10

def SWI_SIGN_RESULT_INTERNAL_ERROR : Nat := 11

/-- The signing-side `SwiSignature` object (swisignature.py). Text fields are
modelled as byte lists (their real values are ASCII base64/label text). -/
structure SwiSignatureRecord where
  version : Nat
  hash : List Nat
  cert : List Nat
  signature : List Nat
  crcpadding : List Nat
  size : Nat

/-- The size-overflow `SwiSignException` raised by `SwiSignature.__repr__`:
its message reports the overflow amount `abs( paddingAmt )` and the minimal
placeholder size `self.size - paddingAmt` that would fit. -/
structure SwiSignSizeError where
  code : Nat
  overflow : Nat
  minSize : Nat
deriving DecidableEq

/-- The `data` string built by `SwiSignature.__repr__` up to and including the
`"Padding:"` label: the four header lines followed by that label. -/
def reprHeader (s : SwiSignatureRecord) : List Nat :=
  asciiBytes "HashAlgorithm:" ++ s.hash ++ [10] ++
  asciiBytes "IssuerCert:" ++ s.cert ++ [10] ++
  asciiBytes "Signature:" ++ s.signature ++ [10] ++
  asciiBytes "Version:" ++ asciiBytes (toString s.version) ++ [10] ++
  asciiBytes "Padding:"

/-- The `crcPadding` string of `__repr__` (`"CRCPadding:"` plus one character
per CRC-padding byte, each taken `& 0xff`); only its length enters the
padding-amount computation. -/
def crcPaddingField (s : SwiSignatureRecord) : List Nat :=
  asciiBytes "CRCPadding:" ++ s.crcpadding.map (fun b => b % 256)

/-- `SwiSignature.__repr__`: the serialized record text without the 4 trailing
CRC bytes (filler character `*` = byte 42, newline = byte 10), or the
size-overflow error (Python raises `SwiSignException` with
`SWI_SIGN_RESULT.ERROR_INPUT_FILES`). `paddingAmt` is computed in ℤ exactly as
in Python. -/
def swiSignatureRepr (s : SwiSignatureRecord) : Except SwiSignSizeError (List Nat) :=
  let paddingAmt : Int :=
    (s.size : Int) - (reprHeader s).length - (crcPaddingField s).length - 1
  if paddingAmt < 0 then
    .error { code := SWI_SIGN_RESULT_ERROR_INPUT_FILES,
             overflow := paddingAmt.natAbs,
             minSize := ((s.size : Int) - paddingAmt).toNat }
  else
    .ok (reprHeader s ++ List.replicate paddingAmt.toNat 42 ++ [10] ++
      asciiBytes "CRCPadding:")

/-- `SwiSignature.getBytes`: the serialized record text followed by the 4 CRC
padding bytes (`b'%c' % ( byte & 0xff )`). -/
def swiSignatureGetBytes (s : SwiSignatureRecord) : Except SwiSignSizeError (List Nat) :=
  match swiSignatureRepr s with
  | .error e => .error e
  | .ok data => .ok (data ++ s.crcpadding.map (fun b => b % 256))

/-! ## Definitions: prepare (swisignature.py prepareSwi, signaturelib.py)
over an abstract archive / file-system state. File paths and member names are
byte lists; `zip`/`unzip` member operations are modelled by their effect on
the member list. -/

/-- `SWI_SIG_FILE_NAME` from signaturelib.py, as bytes. -/
def SWI_SIG_FILE_NAME : List Nat := asciiBytes "swi-signature"

/-- `SWIX_SIG_FILE_NAME` from signaturelib.py, as bytes. -/
def SWIX_SIG_FILE_NAME : List Nat := asciiBytes "swix-signature"

/-- ASCII lower-casing of one byte, modelling `str.lower` on the ASCII file
names used here. -/
def lowerByte (b : Nat) : Nat := if 65 ≤ b ∧ b ≤ 90 then b + 32 else b

/-- `getSigFileName( swiFile )` from signaturelib.py: the reserved signature
member name, chosen by the case-insensitive `.swix` suffix test
(`swiFile.lower().endswith( ".swix" )`). -/
def getSigFileName (swiFile : List Nat) : List Nat :=
  if (asciiBytes ".swix").isSuffixOf (swiFile.map lowerByte) then SWIX_SIG_FILE_NAME
  else SWI_SIG_FILE_NAME

/-- A container file: whether it is a zip archive, and its member list
(name and content, in archive order). -/
structure SwiFile where
  isZip : Bool
  members : List (List Nat × List Nat)

/-- A file system: a container for each path. -/
def FileSys : Type := List Nat → SwiFile

/-- Point update of a file system (the effect of writing path `p`). -/
def fsUpdate (fs : FileSys) (p : List Nat) (f : SwiFile) : FileSys :=
  fun q => if q = p then f else fs q

/-- `shutil.copyfile( src, dst )`. -/
def copyFile (fs : FileSys) (src dst : List Nat) : FileSys :=
  fsUpdate fs dst (fs src)

/-- `zip -dq f name` (the `--force-sign` deletion in `prepareSwi`): remove the
named member from the archive. -/
def zipDelete (f : SwiFile) (name : List Nat) : SwiFile :=
  { f with members := f.members.filter (fun m => decide (m.1 ≠ name)) }

/-- `zip -q -0 -X swi name` via `insertSignature`: append a stored member. -/
def zipInsert (f : SwiFile) (name content : List Nat) : SwiFile :=
  { f with members := f.members ++ [(name, content)] }

/-- `swiSignatureExists( swiFile )` from swisignature.py: whether the reserved
signature member is present, or the `ERROR_NOT_A_SWI` `SwiSignException` when
the input is not a zip file. -/
def swiSignatureExistsM (f : SwiFile) (path : List Nat) : Except Nat Bool :=
  if ¬ f.isZip then .error SWI_SIGN_RESULT_ERROR_NOT_A_SWI
  else .ok (decide (getSigFileName path ∈ f.members.map Prod.fst))

/-- `prepareSwi( swi, outfile, forceSign, size )` from swisignature.py: copy
to `outfile` when given, raise `ALREADY_SIGNED` unless `forceSign`, delete the
old member under `forceSign`, then insert the all-zero placeholder member.
Returns the final file system and either the raised error code or the
prepared container (whose hash `generateHash` would return). -/
def prepareSwiM (fs : FileSys) (swi : List Nat) (outfile : Option (List Nat))
    (forceSign : Bool) (size : Nat) : FileSys × Except Nat SwiFile :=
  let fs1 := match outfile with
    | some o => copyFile fs swi o
    | none => fs
  let swiFile := match outfile with
    | some o => o
    | none => swi
  match swiSignatureExistsM (fs1 swiFile) swiFile with
  | .error c => (fs1, .error c)
  | .ok sigExists =>
      if sigExists && !forceSign then
        (fs1, .error SWI_SIGN_RESULT_ALREADY_SIGNED)
      else
        let fs2 := if sigExists then
            fsUpdate fs1 swiFile (zipDelete (fs1 swiFile) (getSigFileName swiFile))
          else fs1
        let fs3 := fsUpdate fs2 swiFile
          (zipInsert (fs2 swiFile) (getSigFileName swiFile) (List.replicate size 0))
        (fs3, .ok (fs3 swiFile))

/-! ## Definitions: multi-image waterfall applicability (signaturelib.py
getOptimizations, swisignature.py signSwiAll) -/

/-- `optim, _ = line.split( "=", 1 )` on one whitespace token of the
`swimSqshMap` manifest: the part before the first `=` (byte 61), or `none`
modelling the `ValueError` when the token has no `=`. -/
def splitOptim (line : List Nat) : Option (List Nat) :=
  if 61 ∈ line then some (line.takeWhile (fun b => decide (b ≠ 61))) else none

/-- `getOptimizations( swi, workDir )` from signaturelib.py: `none` when the
`swimSqshMap` member is absent from the archive; otherwise the first
`=`-field of each whitespace token of the member's content. The manifest
argument is the token list (`.split()` of the decoded member); `Except ()`
models the `ValueError` on a token without `=`. -/
def getOptimizationsM (manifest : Option (List (List Nat))) :
    Except Unit (Option (List (List Nat))) :=
  match manifest with
  | none => .ok none
  | some toks =>
      match toks.mapM splitOptim with
      | none => .error ()
      | some optims => .ok (some optims)

/-- The applicability guard of `signSwiAll` (swisignature.py):
`optims is None or len( optims ) == 1 or "DEFAULT" in optims`. `true` selects
the single-image path (direct `signSwi` on the whole container), `false` the
multi-image waterfall (swadapt extraction and per-optimization loop). -/
def signSwiAllSingleImage (optims : Option (List (List Nat))) : Bool :=
  match optims with
  | none => true
  | some l => l.length == 1 || l.contains (asciiBytes "DEFAULT")

/-- The path taken by `signSwiAll` as a function of the sub-image manifest:
`.ok true` iff the single-image path is taken. -/
def signSwiAllPath (manifest : Option (List (List Nat))) : Except Unit Bool :=
  match getOptimizationsM manifest with
  | .error e => .error e
  | .ok optims => .ok (signSwiAllSingleImage optims)

/-! ## Definitions: verification engine (verifyswi.py). Cryptographic and
archive primitives (X509 parsing, chain validation, the streamed RSA verify,
zip member reads) are abstracted by their outcomes in `VerifyEnv`; the record
decoding (`updateFields`), format check and control flow are modelled from
the source. -/

/-- `VERIFY_SWI_RESULT` codes from verifyswi.py. -/
def VERIFY_SWI_RESULT_SUCCESS : Nat := 0

def VERIFY_SWI_RESULT_ERROR_SIGNATURE_FILE : Nat := 3

def VERIFY_SWI_RESULT_ERROR_VERIFICATION : Nat := 4

def VERIFY_SWI_RESULT_ERROR_HASH_ALGORITHM : Nat := 5

def VERIFY_SWI_RESULT_ERROR_SIGNATURE_FORMAT : Nat := 6

def VERIFY_SWI_RESULT_ERROR_NOT_A_SWI : Nat := 7

def VERIFY_SWI_RESULT_ERROR_CERT_MISMATCH : Nat := 8

def VERIFY_SWI_RESULT_ERROR_INVALID_SIGNING_CERT : Nat := 9

def VERIFY_SWI_RESULT_ERROR_INVALID_ROOT_CERT : Nat := 10

/-- Result of a primitive that can raise `IOError`. -/
inductive IOResult (α : Type) where
  | ioError : IOResult α
  | ok : α → IOResult α
deriving DecidableEq

/-- Exceptions the verification helpers can raise besides returning a code:
`IOError` (which `verifySwi` catches) and `zipfile.BadZipFile` (which it does
NOT catch — `verifySwi`'s `except` clauses name only `IOError` and
`X509CertException`). -/
inductive PyExc where
  | ioError : PyExc
  | badZipFile : PyExc
deriving DecidableEq

/-- Result of reading the signature member out of the archive
(`getSwiSignatureData`): an `IOError`, a `zipfile.BadZipFile` (raised when the
central directory is corrupt although the file passed `is_zipfile`, or when
the member's stored bytes fail their recorded CRC-32 during the read), the
`KeyError` for an absent member (`ok none`), or the member's lines. -/
inductive ZipResult (α : Type) where
  | ioError : ZipResult α
  | badZipFile : ZipResult α
  | ok : α → ZipResult α
deriving DecidableEq

/-- What `verifySwi` delivers to its caller: a returned `VERIFY_SWI_RESULT`
code, or an exception that escapes uncaught. -/
inductive VerifyOutcome where
  | code : Nat → VerifyOutcome
  | raised : PyExc → VerifyOutcome
deriving DecidableEq

/-- The verification-side `SwiSignature` record (verifyswi.py). `version` and
`hashAlgo` hold stripped text; `cert` and `signature` hold the
`base64.standard_b64decode` result (empty on decode failure). -/
structure SwiSignatureV where
  version : List Nat
  hashAlgo : List Nat
  cert : List Nat
  signature : List Nat
deriving DecidableEq

/-- `base64Decode( text )` from verifyswi.py over an abstract decoder `b64`
modelling `base64.standard_b64decode` (partial: `none` = the library raises):
the decoded bytes, or `""` when decoding fails. -/
def base64DecodeM (b64 : List Nat → Option (List Nat)) (text : List Nat) :
    List Nat :=
  (b64 text).getD []

/-- Python `str.strip` on ASCII text: remove leading and trailing
whitespace bytes. -/
def isSpaceByte (b : Nat) : Bool :=
  b == 32 || b == 9 || b == 10 || b == 13 || b == 11 || b == 12

/-- `value.strip()`. -/
def stripBytes (l : List Nat) : List Nat :=
  ((l.dropWhile isSpaceByte).reverse.dropWhile isSpaceByte).reverse

/-- One iteration of `SwiSignature.updateFields`: split the line on `:`
(byte 58); exactly two parts assign the matching field (anything else only
prints a warning and leaves the record unchanged). -/
def updateFieldLine (b64 : List Nat → Option (List Nat)) (sig : SwiSignatureV)
    (line : List Nat) : SwiSignatureV :=
  match line.splitOn 58 with
  | [k, v] =>
      if k = asciiBytes "Version" then { sig with version := stripBytes v }
      else if k = asciiBytes "HashAlgorithm" then { sig with hashAlgo := stripBytes v }
      else if k = asciiBytes "IssuerCert" then
        { sig with cert := base64DecodeM b64 (stripBytes v) }
      else if k = asciiBytes "Signature" then
        { sig with signature := base64DecodeM b64 (stripBytes v) }
      else sig
  | _ => sig

/-- `SwiSignature.updateFields` over the member's lines, starting from the
all-empty record built by `SwiSignature.__init__`. -/
def updateFieldsM (b64 : List Nat → Option (List Nat))
    (lines : List (List Nat)) : SwiSignatureV :=
  lines.foldl (updateFieldLine b64)
    { version := [], hashAlgo := [], cert := [], signature := [] }

/-- `verifySignatureFormat( swiSignature )` from verifyswi.py. -/
def verifySignatureFormatM (s : SwiSignatureV) : Bool :=
  s.cert.length != 0 && s.hashAlgo.length != 0 && s.signature.length != 0

/-- `getHashAlgo( swiSignature )` from verifyswi.py: `'sha256'` when the field
is `'SHA-256'`, else `None`. -/
def getHashAlgoM (s : SwiSignatureV) : Option (List Nat) :=
  if s.hashAlgo = asciiBytes "SHA-256" then some (asciiBytes "sha256") else none

/-- Abstract outcomes of the primitives `verifySwi` composes: whether the
container is a zip (`zipfile.is_zipfile`), the signature member's lines (or
`none` for the `KeyError` when the member is absent), whether
`X509.load_cert_string` parses the record's cert, whether the root CA loads,
whether the signing cert chains to the root (`verify(...) == 1`), and the
streamed `verify_update`/`verify_final` outcome. Each `IOResult` step may
raise `IOError`. -/
structure VerifyEnv where
  isZip : IOResult Bool
  sigLines : ZipResult (Option (List (List Nat)))
  certParses : Bool
  rootLoads : Bool
  certChains : Bool
  streamOutcome : IOResult Bool

/-- `loadSigningCert`: raises `X509CertException( ERROR_INVALID_SIGNING_CERT )`
when X509 parsing of the decoded cert fails. -/
def loadSigningCertM (env : VerifyEnv) : Except Nat Unit :=
  if env.certParses then .ok ()
  else .error VERIFY_SWI_RESULT_ERROR_INVALID_SIGNING_CERT

/-- `signingCertValid`: raises `X509CertException( ERROR_INVALID_ROOT_CERT )`
when the root certificate cannot be loaded; otherwise returns `SUCCESS` or
`ERROR_CERT_MISMATCH` from the chain check. -/
def signingCertValidM (env : VerifyEnv) : Except Nat Nat :=
  if ¬ env.rootLoads then .error VERIFY_SWI_RESULT_ERROR_INVALID_ROOT_CERT
  else .ok (if env.certChains then VERIFY_SWI_RESULT_SUCCESS
    else VERIFY_SWI_RESULT_ERROR_CERT_MISMATCH)

/-- `swiSignatureValid`: unsupported hash algorithm, or the streamed
verification (which may raise `IOError`, modelled by `.ioError`). -/
def swiSignatureValidM (env : VerifyEnv) (s : SwiSignatureV) : IOResult Nat :=
  match getHashAlgoM s with
  | none => .ok VERIFY_SWI_RESULT_ERROR_HASH_ALGORITHM
  | some _ =>
      match env.streamOutcome with
      | .ioError => .ioError
      | .ok true => .ok VERIFY_SWI_RESULT_SUCCESS
      | .ok false => .ok VERIFY_SWI_RESULT_ERROR_VERIFICATION

/-- The part of `verifySwi` after the signature-format check: certificate
load, chain validation, streamed verification; `X509CertException`s are
caught and mapped to their code, `IOError` to `ERROR_VERIFICATION`. -/
def verifySwiAfterFormat (env : VerifyEnv) (sig : SwiSignatureV) : Nat :=
  match loadSigningCertM env with
  | .error c => c
  | .ok _ =>
      match signingCertValidM env with
      | .error c => c
      | .ok r =>
          if r ≠ VERIFY_SWI_RESULT_SUCCESS then r
          else
            match swiSignatureValidM env sig with
            | .ioError => VERIFY_SWI_RESULT_ERROR_VERIFICATION
            | .ok r2 => r2

/-- `verifySwi( swi, rootCA )` from verifyswi.py: what the caller receives.
The `except` clauses catch `IOError` (→ `ERROR_VERIFICATION`) and
`X509CertException` (→ its code) — and nothing else, so a
`zipfile.BadZipFile` raised while reading the signature member propagates
uncaught to the caller (`.raised`). -/
def verifySwiM (b64 : List Nat → Option (List Nat)) (env : VerifyEnv) :
    VerifyOutcome :=
  match env.isZip with
  | .ioError => .code VERIFY_SWI_RESULT_ERROR_VERIFICATION
  | .ok false => .code VERIFY_SWI_RESULT_ERROR_NOT_A_SWI
  | .ok true =>
      match env.sigLines with
      | .ioError => .code VERIFY_SWI_RESULT_ERROR_VERIFICATION
      | .badZipFile => .raised .badZipFile
      | .ok none => .code VERIFY_SWI_RESULT_ERROR_SIGNATURE_FILE
      | .ok (some lines) =>
          if ¬ verifySignatureFormatM (updateFieldsM b64 lines) then
            .code VERIFY_SWI_RESULT_ERROR_SIGNATURE_FORMAT
          else .code (verifySwiAfterFormat env (updateFieldsM b64 lines))

/-! ## Definitions: sign (swisignature.py signSwi). The local file reads, EVP
key signing and the final re-verification are abstracted by their outcomes in
`SignEnv`; record construction, CRC padding computation and the placeholder
overwrite are modelled from the source. -/

/-- `SwiSignException` codes or the `checkCrc32Value` assertion failure. -/
inductive SignError where
  | code : Nat → SignError
  | assertionFailed : SignError
deriving DecidableEq

/-- Abstract inputs and primitive outcomes of `signSwi` on the
signature-file path: whether the null signature member exists, the container
bytes, the member's offset and size from `getNullSigInfo`, the stripped
signature text and whether `base64.b64decode` accepts it, the base64-encoded
signing certificate, and the outcome of the final `verifyswi.verifySwi`. -/
structure SignEnv where
  sigExists : Bool
  fileBytes : List Nat
  offset : Nat
  fileSize : Nat
  sigContent : List Nat
  sigB64Valid : Bool
  certB64 : List Nat
  verifyResult : Nat

/-- `signSwi( swi, signingCertFile, rootCaFile, signatureFile )` from
swisignature.py: null-signature check, signature base64 check, record
construction, CRC-padding computation via `crc32collision.matchingBytes` on
the all-zero placeholder's CRC32, in-place overwrite at the member's offset,
then the unconditional re-verification. Returns the final container bytes and
the outcome. -/
def signSwiM (env : SignEnv) : List Nat × Except SignError Unit :=
  if ¬ env.sigExists then
    (env.fileBytes, .error (.code SWI_SIGN_RESULT_ERROR_NO_NULL_SIG))
  else if ¬ env.sigB64Valid then
    (env.fileBytes, .error (.code SWI_SIGN_RESULT_ERROR_INPUT_FILES))
  else
    match swiSignatureRepr
        { version := SIGN_VERSION, hash := SIGN_HASH, cert := env.certB64,
          signature := env.sigContent, crcpadding := [0, 0, 0, 0],
          size := env.fileSize } with
    | .error e => (env.fileBytes, .error (.code e.code))
    | .ok reprBytes =>
        match matchingBytes (crc32 (List.replicate env.fileSize 0))
            (crc32 reprBytes) with
        | none => (env.fileBytes, .error .assertionFailed)
        | some padding =>
            match swiSignatureGetBytes
                { version := SIGN_VERSION, hash := SIGN_HASH, cert := env.certB64,
                  signature := env.sigContent, crcpadding := padding,
                  size := env.fileSize } with
            | .error e => (env.fileBytes, .error (.code e.code))
            | .ok bytes =>
                let written := env.fileBytes.take env.offset ++ bytes ++
                  env.fileBytes.drop (env.offset + bytes.length)
                if env.verifyResult ≠ VERIFY_SWI_RESULT_SUCCESS then
                  (written, .error (.code SWI_SIGN_RESULT_ERROR_FAIL_VERIFICATION))
                else (written, .ok ())

/-! ## Theorems: CRC32 forcing (crc32collision.py) -/

theorem xor_cancel_right (a b p : Nat) : (a ^^^ p) ^^^ (b ^^^ p) = a ^^^ b := by
  rw [Nat.xor_comm b p, ← Nat.xor_assoc, Nat.xor_assoc a p p, Nat.xor_self, Nat.xor_zero]

theorem xor_right_comm (a b c : Nat) : (a ^^^ b) ^^^ c = (a ^^^ c) ^^^ b := by
  rw [Nat.xor_assoc, Nat.xor_comm b c, ← Nat.xor_assoc]

theorem shiftRight_one_eq_div (x : Nat) : x >>> 1 = x / 2 := by
  rw [Nat.shiftRight_eq_div_pow]

theorem xor_shiftRight_one (x y : Nat) : (x ^^^ y) >>> 1 = (x >>> 1) ^^^ (y >>> 1) := by
  simp [shiftRight_one_eq_div, Nat.xor_div_two]

theorem xor_mod_two (a b : Nat) : (a ^^^ b) % 2 = (a % 2 + b % 2) % 2 := by
  have h := Nat.xor_mod_two_eq_one (a := a) (b := b)
  by_cases ha : a % 2 = 1 <;> by_cases hb : b % 2 = 1
  · have hx : ¬((a ^^^ b) % 2 = 1) := by rw [h]; simp [ha, hb]
    omega
  · have hx : (a ^^^ b) % 2 = 1 := by rw [h]; simp [ha, hb]
    omega
  · have hx : (a ^^^ b) % 2 = 1 := by rw [h]; simp [ha, hb]
    omega
  · have hx : ¬((a ^^^ b) % 2 = 1) := by rw [h]; simp [ha, hb]
    omega

theorem and_one_ne_zero_iff (x : Nat) : (x &&& 1 ≠ 0) ↔ x % 2 = 1 := by
  rw [Nat.and_one_is_mod]; omega

theorem crcStep_xor (x y : Nat) : crcStep (x ^^^ y) = crcStep x ^^^ crcStep y := by
  have hxy := xor_mod_two x y
  unfold crcStep
  simp only [and_one_ne_zero_iff]
  rcases Nat.mod_two_eq_zero_or_one x with hx | hx <;>
    rcases Nat.mod_two_eq_zero_or_one y with hy | hy
  · have hc : ¬((x ^^^ y) % 2 = 1) := by omega
    have hx' : ¬(x % 2 = 1) := by omega
    have hy' : ¬(y % 2 = 1) := by omega
    rw [if_neg hc, if_neg hx', if_neg hy', xor_shiftRight_one]
  · have hc : (x ^^^ y) % 2 = 1 := by omega
    have hx' : ¬(x % 2 = 1) := by omega
    rw [if_pos hc, if_neg hx', if_pos hy, xor_shiftRight_one, Nat.xor_assoc]
  · have hc : (x ^^^ y) % 2 = 1 := by omega
    have hy' : ¬(y % 2 = 1) := by omega
    rw [if_pos hc, if_pos hx, if_neg hy', xor_shiftRight_one, xor_right_comm]
  · have hc : ¬((x ^^^ y) % 2 = 1) := by omega
    rw [if_neg hc, if_pos hx, if_pos hy, xor_shiftRight_one, xor_cancel_right]

theorem crcSteps_xor (n x y : Nat) :
    crcSteps n (x ^^^ y) = crcSteps n x ^^^ crcSteps n y := by
  induction n generalizing x y with
  | zero => rfl
  | succ n ih => simp only [crcSteps, crcStep_xor, ih]

theorem crcSteps_comp (m n r : Nat) :
    crcSteps n (crcSteps m r) = crcSteps (m + n) r := by
  induction m generalizing r with
  | zero => rw [Nat.zero_add]; rfl
  | succ m ih =>
    have : m + 1 + n = (m + n) + 1 := by omega
    rw [this]
    simp only [crcSteps]
    exact ih (crcStep r)

theorem crcStep_shiftLeft_succ (c n : Nat) : crcStep (c <<< (n + 1)) = c <<< n := by
  have h1 : c <<< (n + 1) = (c <<< n) * 2 := by
    rw [Nat.shiftLeft_eq, Nat.shiftLeft_eq, pow_succ]; ring
  unfold crcStep
  rw [if_neg (by rw [Nat.and_one_is_mod]; omega), shiftRight_one_eq_div]
  omega

theorem crcSteps_shiftLeft_self (n b : Nat) : crcSteps n (b <<< n) = b := by
  induction n generalizing b with
  | zero => simp [crcSteps, Nat.shiftLeft_zero]
  | succ n ih => simp only [crcSteps, crcStep_shiftLeft_succ, ih]

theorem crcSteps_absorb (n x b : Nat) :
    crcSteps n (x ^^^ (b <<< n)) = crcSteps n x ^^^ b := by
  rw [crcSteps_xor, crcSteps_shiftLeft_self]

theorem crc32Raw_append_four (l : List Nat) (b0 b1 b2 b3 : Nat) :
    crc32Raw (l ++ [b0, b1, b2, b3]) =
      crcSteps 32 (crc32Raw l ^^^ (b0 ^^^ (b1 <<< 8) ^^^ (b2 <<< 16) ^^^ (b3 <<< 24))) := by
  have h : crc32Raw (l ++ [b0, b1, b2, b3]) =
      crc32UpdateByte (crc32UpdateByte (crc32UpdateByte
        (crc32UpdateByte (crc32Raw l) b0) b1) b2) b3 := by
    simp [crc32Raw, List.foldl_append]
  rw [h]
  unfold crc32UpdateByte
  rw [← crcSteps_absorb 8 (crc32Raw l ^^^ b0) b1, crcSteps_comp,
      ← crcSteps_absorb 16 _ b2, crcSteps_comp,
      ← crcSteps_absorb 24 _ b3, crcSteps_comp]
  norm_num
  congr 1
  simp [Nat.xor_assoc]

theorem crcfixLoop_xor (n : Nat) : ∀ a b y z : Nat,
    crcfixLoop n (a ^^^ b) (y ^^^ z) = crcfixLoop n a y ^^^ crcfixLoop n b z := by
  induction n with
  | zero => intro a b y z; rfl
  | succ n ih =>
    intro a b y z
    have hyz := xor_mod_two y z
    simp only [crcfixLoop, and_one_ne_zero_iff, xor_shiftRight_one]
    rcases Nat.mod_two_eq_zero_or_one y with hy | hy <;>
      rcases Nat.mod_two_eq_zero_or_one z with hz | hz
    · have hc : ¬((y ^^^ z) % 2 = 1) := by omega
      have hy' : ¬(y % 2 = 1) := by omega
      have hz' : ¬(z % 2 = 1) := by omega
      rw [if_neg hc, if_neg hy', if_neg hz', crcStep_xor, ih]
    · have hc : (y ^^^ z) % 2 = 1 := by omega
      have hy' : ¬(y % 2 = 1) := by omega
      rw [if_pos hc, if_neg hy', if_pos hz, crcStep_xor, Nat.xor_assoc, ih]
    · have hc : (y ^^^ z) % 2 = 1 := by omega
      have hz' : ¬(z % 2 = 1) := by omega
      rw [if_pos hc, if_pos hy, if_neg hz', crcStep_xor, xor_right_comm, ih]
    · have hc : ¬((y ^^^ z) % 2 = 1) := by omega
      rw [if_neg hc, if_pos hy, if_pos hz, crcStep_xor, ← xor_cancel_right (crcStep a)
        (crcStep b) CRCINV, ih]

set_option maxRecDepth 100000 in
theorem crcfix_basis : ∀ i, i < 32 → crcSteps 32 (crcfixLoop 32 0 (2 ^ i)) = 2 ^ i := by
  decide

theorem xor_mul_two_pow_eq_add (n : Nat) : ∀ a b : Nat, a < 2 ^ n →
    a ^^^ b * 2 ^ n = a + b * 2 ^ n := by
  induction n with
  | zero =>
    intro a b ha
    have : a = 0 := by omega
    subst this; simp
  | succ n ih =>
    intro a b ha
    have hmul : b * 2 ^ (n + 1) = (b * 2 ^ n) * 2 := by rw [pow_succ]; ring
    have hdiv : (a ^^^ b * 2 ^ (n + 1)) / 2 = (a / 2) ^^^ (b * 2 ^ n) := by
      rw [Nat.xor_div_two]; congr 1; omega
    have hmod : (a ^^^ b * 2 ^ (n + 1)) % 2 = a % 2 := by
      have h1 := xor_mod_two a (b * 2 ^ (n + 1))
      omega
    have hrec := Nat.div_add_mod (a ^^^ b * 2 ^ (n + 1)) 2
    rw [hdiv, hmod] at hrec
    have hha : a / 2 < 2 ^ n := by
      have : 2 ^ (n + 1) = 2 ^ n * 2 := by rw [pow_succ]
      omega
    have := ih (a / 2) b hha
    omega

theorem two_pow_xor_eq_add (n z : Nat) (h : z < 2 ^ n) : 2 ^ n ^^^ z = 2 ^ n + z := by
  have := xor_mul_two_pow_eq_add n z 1 h
  rw [one_mul] at this
  rw [Nat.xor_comm]
  omega

set_option maxRecDepth 100000 in
theorem crcfix_left_inverse : ∀ n, n ≤ 32 → ∀ y, y < 2 ^ n →
    crcSteps 32 (crcfixLoop 32 0 y) = y := by
  intro n
  induction n with
  | zero =>
    intro _ y hy
    have : y = 0 := by omega
    subst this; decide
  | succ n ih =>
    intro hn y hy
    by_cases h : y < 2 ^ n
    · exact ih (by omega) y h
    · have h2 : 2 ^ (n + 1) = 2 ^ n * 2 := by rw [pow_succ]
      have hz : y - 2 ^ n < 2 ^ n := by omega
      have hyx : 2 ^ n ^^^ (y - 2 ^ n) = y := by
        rw [two_pow_xor_eq_add n _ hz]; omega
      have h00 : (0 : Nat) = 0 ^^^ 0 := by simp
      calc crcSteps 32 (crcfixLoop 32 0 y)
          = crcSteps 32 (crcfixLoop 32 (0 ^^^ 0) (2 ^ n ^^^ (y - 2 ^ n))) := by
            rw [hyx, ← h00]
        _ = crcSteps 32 (crcfixLoop 32 0 (2 ^ n) ^^^ crcfixLoop 32 0 (y - 2 ^ n)) := by
            rw [crcfixLoop_xor]
        _ = crcSteps 32 (crcfixLoop 32 0 (2 ^ n)) ^^^ crcSteps 32 (crcfixLoop 32 0 (y - 2 ^ n)) := by
            rw [crcSteps_xor]
        _ = 2 ^ n ^^^ (y - 2 ^ n) := by
            rw [crcfix_basis n (by omega), ih (by omega) _ hz]
        _ = y := hyx

theorem crcStep_lt (r : Nat) (h : r < 2 ^ 32) : crcStep r < 2 ^ 32 := by
  unfold crcStep
  have hr : r >>> 1 < 2 ^ 32 := by rw [shiftRight_one_eq_div]; omega
  split
  · exact Nat.xor_lt_two_pow hr (by norm_num [CRCPOLY])
  · exact hr

theorem crcSteps_lt (n r : Nat) (h : r < 2 ^ 32) : crcSteps n r < 2 ^ 32 := by
  induction n generalizing r with
  | zero => exact h
  | succ n ih => exact ih (crcStep r) (crcStep_lt r h)

theorem crc32Raw_lt (l : List Nat) (h : ∀ x ∈ l, x < 2 ^ 32) : crc32Raw l < 2 ^ 32 := by
  have gen : ∀ (t : List Nat) (r : Nat), r < 2 ^ 32 → (∀ x ∈ t, x < 2 ^ 32) →
      List.foldl crc32UpdateByte r t < 2 ^ 32 := by
    intro t
    induction t with
    | nil => intro r hr _; simpa using hr
    | cons a t ih =>
      intro r hr hall
      simp only [List.foldl_cons]
      exact ih _ (crcSteps_lt 8 _ (Nat.xor_lt_two_pow hr (hall a (List.mem_cons_self a t))))
        fun x hx => hall x (List.mem_cons_of_mem a hx)
  exact gen l _ (by norm_num) h

theorem crc32_lt (l : List Nat) (h : ∀ x ∈ l, x < 2 ^ 32) : crc32 l < 2 ^ 32 :=
  Nat.xor_lt_two_pow (crc32Raw_lt l h) (by norm_num)

theorem crcfixLoop_lt (n : Nat) : ∀ a y : Nat, a < 2 ^ 32 → crcfixLoop n a y < 2 ^ 32 := by
  induction n with
  | zero => intro a _ ha; exact ha
  | succ n ih =>
    intro a y ha
    simp only [crcfixLoop]
    split
    · exact ih _ _ (Nat.xor_lt_two_pow (crcStep_lt a ha) (by norm_num [CRCINV]))
    · exact ih _ _ (crcStep_lt a ha)

theorem crcfix_lt (m c : Nat) (hc : c < 2 ^ 32) : crcfix m c < 2 ^ 32 :=
  Nat.xor_lt_two_pow (crcfixLoop_lt 32 _ _ (by norm_num))
    (Nat.xor_lt_two_pow hc (by norm_num))

theorem bytes_reassemble (v : Nat) (hv : v < 2 ^ 32) :
    (v &&& 255) ^^^ ((v >>> 8 &&& 255) <<< 8) ^^^ ((v >>> 16 &&& 255) <<< 16) ^^^
      ((v >>> 24 &&& 255) <<< 24) = v := by
  have h255 : (255 : Nat) = 2 ^ 8 - 1 := by norm_num
  simp only [h255, Nat.and_pow_two_sub_one_eq_mod, Nat.shiftRight_eq_div_pow,
    Nat.shiftLeft_eq]
  rw [show ((v / 2 ^ 8 % 2 ^ 8) * 2 ^ 8 : Nat) = (v / 2 ^ 8 % 2 ^ 8) * 2 ^ 8 from rfl]
  rw [xor_mul_two_pow_eq_add 8 _ _ (Nat.mod_lt _ (by norm_num))]
  rw [xor_mul_two_pow_eq_add 16 _ _ (by
    have h1 : v % 2 ^ 8 < 2 ^ 8 := Nat.mod_lt _ (by norm_num)
    have h2 : v / 2 ^ 8 % 2 ^ 8 < 2 ^ 8 := Nat.mod_lt _ (by norm_num)
    norm_num at h1 h2 ⊢
    omega)]
  rw [xor_mul_two_pow_eq_add 24 _ _ (by
    have h1 : v % 2 ^ 8 < 2 ^ 8 := Nat.mod_lt _ (by norm_num)
    have h2 : v / 2 ^ 8 % 2 ^ 8 < 2 ^ 8 := Nat.mod_lt _ (by norm_num)
    have h3 : v / 2 ^ 16 % 2 ^ 8 < 2 ^ 8 := Nat.mod_lt _ (by norm_num)
    norm_num at h1 h2 h3 ⊢
    omega)]
  norm_num
  omega

/-- C1: CRC32-forcing round trip. For every pair of byte buffers `a` and `b` of
equal length, computing the 4 suffix bytes with
`matchingBytes (crc32 b) (crc32 a[:-4])` (the range checks pass, so the result
is `some s`) and appending them to `a[:-4]` yields a buffer whose CRC32 equals
`crc32 b`; the suffix is computed in closed form by `crcfix`'s 32 reverse
iterations, with no dependence on the message length. -/
theorem crc32_forcing_roundtrip (a b : List Nat)
    (ha : ∀ x ∈ a, x < 256) (hb : ∀ x ∈ b, x < 256)
    (hlen : a.length = b.length) :
    ∃ s, matchingBytes (crc32 b) (crc32 (a.take (a.length - 4))) = some s ∧
      crc32 (a.take (a.length - 4) ++ s) = crc32 b := by
  have hpreB : ∀ x ∈ a.take (a.length - 4), x < 2 ^ 32 := by
    intro x hx
    have := ha x (List.take_subset _ _ hx)
    omega
  have hbB : ∀ x ∈ b, x < 2 ^ 32 := by
    intro x hx
    have := hb x hx
    omega
  have hM : crc32 b < 2 ^ 32 := crc32_lt b hbB
  set pre := a.take (a.length - 4) with hpredef
  have hC : crc32 pre < 2 ^ 32 := crc32_lt _ hpreB
  set v := crcfix (crc32 b) (crc32 pre) with hvdef
  have hv : v < 2 ^ 32 := crcfix_lt _ _ hC
  have hrange : (List.range 4).map (fun i => (v >>> (i * 8)) &&& 0xff)
      = [v &&& 255, v >>> 8 &&& 255, v >>> 16 &&& 255, v >>> 24 &&& 255] := by
    have h4 : List.range 4 = [0, 1, 2, 3] := rfl
    rw [h4]
    simp only [List.map_cons, List.map_nil]
    norm_num
  refine ⟨[v &&& 255, v >>> 8 &&& 255, v >>> 16 &&& 255, v >>> 24 &&& 255], ?_, ?_⟩
  · rw [matchingBytes, if_pos ⟨hM, hC⟩, ← hvdef, hrange]
  · rw [crc32, crc32Raw_append_four]
    rw [bytes_reassemble v hv]
    rw [hvdef, crcfix]
    have hcp : crc32 pre = crc32Raw pre ^^^ 0xffffffff := rfl
    rw [hcp]
    have hRR : (crc32Raw pre ^^^ 0xffffffff) ^^^ 0xffffffff = crc32Raw pre := by
      rw [Nat.xor_assoc, Nat.xor_self, Nat.xor_zero]
    rw [hRR]
    have hU : crc32Raw pre ^^^ (crcfixLoop 32 0 (crc32 b ^^^ 0xffffffff) ^^^ crc32Raw pre)
        = crcfixLoop 32 0 (crc32 b ^^^ 0xffffffff) := by
      rw [Nat.xor_comm (crcfixLoop 32 0 (crc32 b ^^^ 0xffffffff)) (crc32Raw pre),
        ← Nat.xor_assoc, Nat.xor_self, Nat.zero_xor]
    rw [hU]
    rw [crcfix_left_inverse 32 le_rfl _ (Nat.xor_lt_two_pow hM (by norm_num))]
    rw [Nat.xor_assoc, Nat.xor_self, Nat.xor_zero]

/-- Witness for C1: the round trip applied to the concrete buffers
`[10, 20, 30, 40, 50]` and `[1, 2, 3, 4, 5]`. -/
theorem crc32_forcing_roundtrip_witness :
    ∃ s, matchingBytes (crc32 [1, 2, 3, 4, 5])
        (crc32 (([10, 20, 30, 40, 50] : List Nat).take
          (([10, 20, 30, 40, 50] : List Nat).length - 4))) = some s ∧
      crc32 (([10, 20, 30, 40, 50] : List Nat).take
          (([10, 20, 30, 40, 50] : List Nat).length - 4) ++ s) = crc32 [1, 2, 3, 4, 5] :=
  crc32_forcing_roundtrip [10, 20, 30, 40, 50] [1, 2, 3, 4, 5]
    (by decide) (by decide) (by decide)

/-! ## Theorems: streamed verification digest (verifyswi.py) -/

theorem take_add_split {α : Type} (a b : Nat) :
    ∀ l : List α, l.take (a + b) = l.take a ++ (l.drop a).take b := by
  induction a with
  | zero => intro l; simp
  | succ a ih =>
    intro l
    cases l with
    | nil => simp
    | cons x xs =>
      have hs : a + 1 + b = (a + b) + 1 := by omega
      rw [hs, List.take_succ_cons, List.take_succ_cons, List.drop_succ_cons,
        List.cons_append, ih]

theorem readBlocks_eq_drop (file : List Nat) (pos : Nat) :
    readBlocks file pos = file.drop pos := by
  have main : ∀ k p, file.length - p ≤ k → readBlocks file p = file.drop p := by
    intro k
    induction k with
    | zero =>
      intro p hk
      have hlen : file.length ≤ p := by omega
      have h1 : (readN file p BLOCK_SIZE).1 = [] := by
        simp only [readN]
        rw [List.drop_eq_nil_of_le hlen, List.take_nil]
      rw [readBlocks.eq_def, dif_pos h1, List.drop_eq_nil_of_le hlen]
    | succ k ih =>
      intro p hk
      by_cases h : (readN file p BLOCK_SIZE).1 = []
      · have hnil : file.drop p = [] := by
          simp only [readN] at h
          rcases List.take_eq_nil_iff.mp h with h0 | h0
          · exact absurd h0 (by norm_num [BLOCK_SIZE])
          · exact h0
        rw [readBlocks.eq_def, dif_pos h, hnil]
      · have hpos : p < file.length := by
          by_contra hge
          apply h
          simp only [readN]
          rw [List.drop_eq_nil_of_le (by omega), List.take_nil]
        have hBpos : 0 < BLOCK_SIZE := by norm_num [BLOCK_SIZE]
        rw [readBlocks.eq_def, dif_neg h]
        simp only [readN]
        rw [ih (min (p + BLOCK_SIZE) file.length) (by omega)]
        by_cases hble : p + BLOCK_SIZE ≤ file.length
        · rw [min_eq_left hble, ← List.drop_drop BLOCK_SIZE p file]
          exact List.take_append_drop BLOCK_SIZE (file.drop p)
        · have hmin2 : min (p + BLOCK_SIZE) file.length = file.length := by omega
          rw [hmin2, List.drop_eq_nil_of_le le_rfl, List.append_nil]
          exact List.take_of_length_le (by rw [List.length_drop]; omega)
  exact main (file.length - pos) pos le_rfl

theorem feedUpTo_spec (file : List Nat) : ∀ k o t, t - o ≤ k → o ≤ t →
    t ≤ file.length →
    feedUpTo file o o t = ((file.drop o).take (t - o), t) := by
  intro k
  induction k with
  | zero =>
    intro o t hk ho ht
    have heq : o = t := by omega
    subst heq
    rw [feedUpTo.eq_def, dif_neg (lt_irrefl o)]
    simp
  | succ k ih =>
    intro o t hk ho ht
    have hBpos : 0 < BLOCK_SIZE := by norm_num [BLOCK_SIZE]
    by_cases h : o < t
    · rw [feedUpTo.eq_def, dif_pos h]
      by_cases hB : o + BLOCK_SIZE < t
      · rw [if_pos hB]
        simp only [readN]
        rw [min_eq_left (by omega)]
        rw [ih (o + BLOCK_SIZE) t (by omega) (by omega) ht]
        rw [Prod.mk.injEq]
        refine ⟨?_, rfl⟩
        rw [← List.drop_drop BLOCK_SIZE o file, ← take_add_split]
        have harith : BLOCK_SIZE + (t - (o + BLOCK_SIZE)) = t - o := by omega
        rw [harith]
      · rw [if_neg hB]
        simp only [readN]
        have ho2 : o + (t - o) = t := by omega
        rw [ho2, min_eq_left ht, feedUpTo.eq_def, dif_neg (lt_irrefl t)]
        simp
    · have heq : o = t := by omega
      subst heq
      rw [feedUpTo.eq_def, dif_neg (lt_irrefl o)]
      simp

/-- C2: the digest input of `swiSignatureValid` equals the digest input of the
null-placeholder state. For a container file with signature member offset `o`
and size `s` (the member lying inside the file), the byte stream fed to the
streaming verification — bytes `[0, o)`, then `s` zero bytes, then, after
seeking past the member, the remainder of the file — is exactly the stream
`generateHash` feeds when hashing the whole file with byte range `[o, o + s)`
replaced by zeros. Hence both SHA-256 digests coincide. -/
theorem verifyFeed_eq_generateHashFeed_zeroed (file : List Nat) (o s : Nat)
    (h : o + s ≤ file.length) :
    verifyFeed file o s
      = generateHashFeed (file.take o ++ List.replicate s 0 ++ file.drop (o + s)) := by
  have hfeed := feedUpTo_spec file o 0 o (by omega) (by omega) (by omega)
  rw [generateHashFeed, readBlocks_eq_drop, List.drop_zero]
  rw [verifyFeed, hfeed]
  simp only [List.drop_zero, Nat.sub_zero]
  rw [readBlocks_eq_drop]

/-- Witness for C2 at a concrete file `[1, 2, 3]`, member offset 1, size 1. -/
theorem verifyFeed_eq_generateHashFeed_zeroed_witness :
    verifyFeed [1, 2, 3] 1 1
      = generateHashFeed (([1, 2, 3] : List Nat).take 1 ++ List.replicate 1 0 ++
          ([1, 2, 3] : List Nat).drop (1 + 1)) :=
  verifyFeed_eq_generateHashFeed_zeroed [1, 2, 3] 1 1 (by decide)

/-! ## Theorems: signature record serialization (swisignature.py) -/

theorem crcPaddingField_length (s : SwiSignatureRecord)
    (h4 : s.crcpadding.length = 4) : (crcPaddingField s).length = 15 := by
  rw [crcPaddingField, List.length_append, List.length_map, h4]
  rfl

/-- C3: signature record serialization is exact-size or a hard error. For a
`SwiSignature` with placeholder size `S = s.size` (and its 4 CRC-padding
bytes), if the required content fits in `S` then `getBytes` returns exactly
`S` bytes, with `__repr__` contributing exactly `S - 4` bytes before the 4 CRC
bytes; if it does not fit, serialization fails with
`SWI_SIGN_RESULT.ERROR_INPUT_FILES`, reporting the overflow amount and the
minimal placeholder size that would fit, and no truncated record is
produced. -/
theorem swiSignature_serialization_exact (s : SwiSignatureRecord)
    (h4 : s.crcpadding.length = 4) :
    ((reprHeader s).length + 16 ≤ s.size →
      ∃ r bs, swiSignatureRepr s = .ok r ∧ r.length = s.size - 4 ∧
        swiSignatureGetBytes s = .ok bs ∧ bs.length = s.size ∧
        bs = r ++ s.crcpadding.map (fun b => b % 256)) ∧
    (s.size < (reprHeader s).length + 16 →
      swiSignatureGetBytes s = .error
        { code := SWI_SIGN_RESULT_ERROR_INPUT_FILES,
          overflow := (reprHeader s).length + 16 - s.size,
          minSize := (reprHeader s).length + 16 }) := by
  have hcl := crcPaddingField_length s h4
  constructor
  · intro hfit
    have hcond : ¬((s.size : Int) - ((reprHeader s).length : Int) -
        ((crcPaddingField s).length : Int) - 1 < 0) := by
      rw [hcl]; omega
    have hrepr : swiSignatureRepr s = .ok (reprHeader s ++ List.replicate
        ((s.size : Int) - ((reprHeader s).length : Int) -
          ((crcPaddingField s).length : Int) - 1).toNat 42 ++ [10] ++
        asciiBytes "CRCPadding:") := by
      simp only [swiSignatureRepr]
      rw [if_neg hcond]
    have hlenr : (reprHeader s ++ List.replicate
        ((s.size : Int) - ((reprHeader s).length : Int) -
          ((crcPaddingField s).length : Int) - 1).toNat 42 ++ [10] ++
        asciiBytes "CRCPadding:").length = s.size - 4 := by
      simp only [List.length_append, List.length_replicate, List.length_cons,
        List.length_nil]
      have h11 : (asciiBytes "CRCPadding:").length = 11 := rfl
      rw [h11, hcl]
      omega
    have hbytes : swiSignatureGetBytes s = .ok ((reprHeader s ++ List.replicate
        ((s.size : Int) - ((reprHeader s).length : Int) -
          ((crcPaddingField s).length : Int) - 1).toNat 42 ++ [10] ++
        asciiBytes "CRCPadding:") ++ s.crcpadding.map (fun b => b % 256)) := by
      simp only [swiSignatureGetBytes, hrepr]
    refine ⟨_, _, hrepr, hlenr, hbytes, ?_, rfl⟩
    rw [List.length_append, hlenr, List.length_map, h4]
    omega
  · intro hover
    have hcond : (s.size : Int) - ((reprHeader s).length : Int) -
        ((crcPaddingField s).length : Int) - 1 < 0 := by
      rw [hcl]; omega
    have hrepr : swiSignatureRepr s = .error
        { code := SWI_SIGN_RESULT_ERROR_INPUT_FILES,
          overflow := ((s.size : Int) - ((reprHeader s).length : Int) -
            ((crcPaddingField s).length : Int) - 1).natAbs,
          minSize := ((s.size : Int) - ((s.size : Int) -
            ((reprHeader s).length : Int) -
            ((crcPaddingField s).length : Int) - 1)).toNat } := by
      simp only [swiSignatureRepr]
      rw [if_pos hcond]
    simp only [swiSignatureGetBytes, hrepr]
    simp only [Except.error.injEq, SwiSignSizeError.mk.injEq]
    refine ⟨trivial, ?_, ?_⟩
    · rw [hcl]; omega
    · rw [hcl]; omega

/-- Witness for C3 at a concrete record (all fields empty, placeholder size
100: the required content occupies 56 + 16 bytes, so it fits). -/
theorem swiSignature_serialization_exact_witness :
    ∃ r bs, swiSignatureRepr
        { version := 1, hash := [], cert := [], signature := [],
          crcpadding := [0, 0, 0, 0], size := 100 } = .ok r ∧
      r.length = 100 - 4 ∧
      swiSignatureGetBytes
        { version := 1, hash := [], cert := [], signature := [],
          crcpadding := [0, 0, 0, 0], size := 100 } = .ok bs ∧
      bs.length = 100 ∧
      bs = r ++ ([0, 0, 0, 0] : List Nat).map (fun b => b % 256) :=
  (swiSignature_serialization_exact
    { version := 1, hash := [], cert := [], signature := [],
      crcpadding := [0, 0, 0, 0], size := 100 } (by decide)).1 (by decide)

/-! ## Theorems: prepare (swisignature.py prepareSwi) -/

/-- C4: re-sign requires force. For every container that already contains the
reserved signature member, `prepareSwi` with `forceSign = false` fails with
`ALREADY_SIGNED` and leaves the target archive unchanged (no placeholder is
inserted), while with `forceSign = true` the existing signature member is
removed from the archive before a fresh all-zero placeholder of the requested
size is inserted. -/
theorem prepareSwi_resign_requires_force (fs : FileSys) (swi : List Nat)
    (outfile : Option (List Nat)) (size : Nat)
    (hz : (fs swi).isZip = true)
    (hmem : getSigFileName (outfile.getD swi) ∈ (fs swi).members.map Prod.fst) :
    ((prepareSwiM fs swi outfile false size).2
        = .error SWI_SIGN_RESULT_ALREADY_SIGNED ∧
      (prepareSwiM fs swi outfile false size).1 (outfile.getD swi) = fs swi) ∧
    ((prepareSwiM fs swi outfile true size).1 (outfile.getD swi)
        = zipInsert (zipDelete (fs swi) (getSigFileName (outfile.getD swi)))
            (getSigFileName (outfile.getD swi)) (List.replicate size 0) ∧
      (prepareSwiM fs swi outfile true size).2
        = .ok (zipInsert (zipDelete (fs swi) (getSigFileName (outfile.getD swi)))
            (getSigFileName (outfile.getD swi)) (List.replicate size 0))) := by
  cases outfile with
  | none =>
    simp only [Option.getD] at hmem ⊢
    simp [prepareSwiM, swiSignatureExistsM, hz, hmem, fsUpdate, copyFile]
  | some o =>
    simp only [Option.getD] at hmem ⊢
    simp [prepareSwiM, swiSignatureExistsM, hz, hmem, fsUpdate, copyFile]

/-- Witness for C4: a file system whose container `a.swi` already carries the
`swi-signature` member. -/
theorem prepareSwi_resign_requires_force_witness :
    ((prepareSwiM (fun p => if p = asciiBytes "a.swi" then
          { isZip := true, members := [(SWI_SIG_FILE_NAME, [7, 7])] }
        else { isZip := false, members := [] })
        (asciiBytes "a.swi") none false 8192).2
      = .error SWI_SIGN_RESULT_ALREADY_SIGNED ∧
      (prepareSwiM (fun p => if p = asciiBytes "a.swi" then
          { isZip := true, members := [(SWI_SIG_FILE_NAME, [7, 7])] }
        else { isZip := false, members := [] })
        (asciiBytes "a.swi") none false 8192).1 ((none : Option (List Nat)).getD (asciiBytes "a.swi"))
      = (fun p => if p = asciiBytes "a.swi" then
          { isZip := true, members := [(SWI_SIG_FILE_NAME, [7, 7])] }
        else { isZip := false, members := [] }) (asciiBytes "a.swi")) ∧
    ((prepareSwiM (fun p => if p = asciiBytes "a.swi" then
          { isZip := true, members := [(SWI_SIG_FILE_NAME, [7, 7])] }
        else { isZip := false, members := [] })
        (asciiBytes "a.swi") none true 8192).1 ((none : Option (List Nat)).getD (asciiBytes "a.swi"))
      = zipInsert (zipDelete ((fun p => if p = asciiBytes "a.swi" then
            { isZip := true, members := [(SWI_SIG_FILE_NAME, [7, 7])] }
          else { isZip := false, members := [] }) (asciiBytes "a.swi"))
            (getSigFileName ((none : Option (List Nat)).getD (asciiBytes "a.swi"))))
          (getSigFileName ((none : Option (List Nat)).getD (asciiBytes "a.swi")))
          (List.replicate 8192 0) ∧
      (prepareSwiM (fun p => if p = asciiBytes "a.swi" then
          { isZip := true, members := [(SWI_SIG_FILE_NAME, [7, 7])] }
        else { isZip := false, members := [] })
        (asciiBytes "a.swi") none true 8192).2
      = .ok (zipInsert (zipDelete ((fun p => if p = asciiBytes "a.swi" then
            { isZip := true, members := [(SWI_SIG_FILE_NAME, [7, 7])] }
          else { isZip := false, members := [] }) (asciiBytes "a.swi"))
            (getSigFileName ((none : Option (List Nat)).getD (asciiBytes "a.swi"))))
          (getSigFileName ((none : Option (List Nat)).getD (asciiBytes "a.swi")))
          (List.replicate 8192 0))) :=
  prepareSwi_resign_requires_force _ _ none 8192 (by decide) (by decide)

/-- C10: prepare with an output copy never touches the input. For
`prepareSwi( swi, outfile, ... )` with `outfile ≠ swi`, the input file `swi`
is unchanged on every outcome, and when prepare fails with `ALREADY_SIGNED`
the copy at `outfile` has already been created on disk (it holds the input's
bytes). -/
theorem prepareSwi_outfile_preserves_input (fs : FileSys) (swi o : List Nat)
    (forceSign : Bool) (size : Nat) (hne : o ≠ swi) :
    (prepareSwiM fs swi (some o) forceSign size).1 swi = fs swi ∧
    ((prepareSwiM fs swi (some o) forceSign size).2
        = .error SWI_SIGN_RESULT_ALREADY_SIGNED →
      (prepareSwiM fs swi (some o) forceSign size).1 o = fs swi) := by
  have hne' : swi ≠ o := Ne.symm hne
  by_cases hz : (fs swi).isZip = true
  · by_cases hmem : getSigFileName o ∈ (fs swi).members.map Prod.fst
    · cases forceSign
      · constructor
        · simp [prepareSwiM, swiSignatureExistsM, hz, hmem, copyFile, fsUpdate, hne']
        · intro _
          simp [prepareSwiM, swiSignatureExistsM, hz, hmem, copyFile, fsUpdate]
      · constructor
        · simp [prepareSwiM, swiSignatureExistsM, hz, hmem, copyFile, fsUpdate, hne']
        · intro h
          exfalso
          simp [prepareSwiM, swiSignatureExistsM, hz, hmem, copyFile, fsUpdate,
            SWI_SIGN_RESULT_ALREADY_SIGNED] at h
    · constructor
      · simp [prepareSwiM, swiSignatureExistsM, hz, hmem, copyFile, fsUpdate, hne']
      · intro h
        exfalso
        simp [prepareSwiM, swiSignatureExistsM, hz, hmem, copyFile, fsUpdate,
          SWI_SIGN_RESULT_ALREADY_SIGNED] at h
  · constructor
    · simp [prepareSwiM, swiSignatureExistsM, hz, copyFile, fsUpdate, hne']
    · intro h
      exfalso
      simp [prepareSwiM, swiSignatureExistsM, hz, copyFile, fsUpdate,
        SWI_SIGN_RESULT_ALREADY_SIGNED, SWI_SIGN_RESULT_ERROR_NOT_A_SWI] at h

/-- Witness for C10: preparing `a.swi` into the distinct output path `b.swi`
leaves `a.swi` untouched, and the `ALREADY_SIGNED` failure still creates the
copy. -/
theorem prepareSwi_outfile_preserves_input_witness :
    (prepareSwiM (fun p => if p = asciiBytes "a.swi" then
        { isZip := true, members := [(SWI_SIG_FILE_NAME, [7, 7])] }
      else { isZip := false, members := [] })
      (asciiBytes "a.swi") (some (asciiBytes "b.swi")) false 8192).1 (asciiBytes "a.swi")
    = (fun p => if p = asciiBytes "a.swi" then
        { isZip := true, members := [(SWI_SIG_FILE_NAME, [7, 7])] }
      else { isZip := false, members := [] }) (asciiBytes "a.swi") ∧
    ((prepareSwiM (fun p => if p = asciiBytes "a.swi" then
        { isZip := true, members := [(SWI_SIG_FILE_NAME, [7, 7])] }
      else { isZip := false, members := [] })
      (asciiBytes "a.swi") (some (asciiBytes "b.swi")) false 8192).2
        = .error SWI_SIGN_RESULT_ALREADY_SIGNED →
      (prepareSwiM (fun p => if p = asciiBytes "a.swi" then
          { isZip := true, members := [(SWI_SIG_FILE_NAME, [7, 7])] }
        else { isZip := false, members := [] })
        (asciiBytes "a.swi") (some (asciiBytes "b.swi")) false 8192).1 (asciiBytes "b.swi")
      = (fun p => if p = asciiBytes "a.swi" then
          { isZip := true, members := [(SWI_SIG_FILE_NAME, [7, 7])] }
        else { isZip := false, members := [] }) (asciiBytes "a.swi")) :=
  prepareSwi_outfile_preserves_input _ _ _ false 8192 (by decide)

/-! ## Theorems: multi-image waterfall applicability (signaturelib.py,
swisignature.py signSwiAll) -/

/-- C5 counterexample: a present-but-empty sub-image manifest. The claim says
`signSwiAll` treats an empty manifest as single-image, but the guard
`optims is None or len( optims ) == 1 or "DEFAULT" in optims` evaluates false
for `optims = []`, so the code takes the multi-image waterfall path. -/
theorem signSwiAll_empty_manifest_counterexample :
    signSwiAllPath (some []) = .ok false := rfl

/-- C5 (amended): waterfall applicability. `signSwiAll` takes the single-image
path when the sub-image manifest is absent, parses to exactly one entry, or
contains the `DEFAULT` marker; an empty manifest (member present with zero
tokens) is NOT treated as single-image — it takes the multi-image path. -/
theorem signSwiAll_single_image_applicability :
    (signSwiAllPath none = .ok true) ∧
    (∀ t o, splitOptim t = some o → signSwiAllPath (some [t]) = .ok true) ∧
    (∀ toks optims, getOptimizationsM (some toks) = .ok (some optims) →
      asciiBytes "DEFAULT" ∈ optims → signSwiAllPath (some toks) = .ok true) ∧
    (signSwiAllPath (some []) = .ok false) := by
  refine ⟨rfl, ?_, ?_, rfl⟩
  · intro t o h
    simp [signSwiAllPath, getOptimizationsM, signSwiAllSingleImage,
      List.mapM, List.mapM.loop, h]
  · intro toks optims h hmem
    simp only [signSwiAllPath, h]
    simp [signSwiAllSingleImage, hmem]

/-- Witness for C5 at a one-token manifest `DEFAULT=rootfs`. -/
theorem signSwiAll_single_image_applicability_witness :
    signSwiAllPath (some [asciiBytes "DEFAULT=rootfs"]) = .ok true :=
  signSwiAll_single_image_applicability.2.1 (asciiBytes "DEFAULT=rootfs")
    (asciiBytes "DEFAULT") (by decide)

/-! ## Theorems: verification engine (verifyswi.py) -/

theorem verifySignatureFormatM_eq_true (s : SwiSignatureV) :
    verifySignatureFormatM s = true ↔
      (s.cert ≠ [] ∧ s.hashAlgo ≠ [] ∧ s.signature ≠ []) := by
  simp [verifySignatureFormatM, List.length_eq_zero, and_assoc]

theorem verifySwiAfterFormat_mem (env : VerifyEnv) (sig : SwiSignatureV) :
    verifySwiAfterFormat env sig ∈ ([0, 4, 5, 8, 9, 10] : List Nat) := by
  obtain ⟨z, sl, cp, rl, cc, so⟩ := env
  simp only [verifySwiAfterFormat, loadSigningCertM, signingCertValidM,
    swiSignatureValidM, getHashAlgoM]
  by_cases hh : sig.hashAlgo = asciiBytes "SHA-256" <;>
    cases cp <;> cases rl <;> cases cc <;>
    rcases so with _ | b <;> try cases b
  all_goals
    simp [hh, VERIFY_SWI_RESULT_SUCCESS, VERIFY_SWI_RESULT_ERROR_VERIFICATION,
      VERIFY_SWI_RESULT_ERROR_CERT_MISMATCH, VERIFY_SWI_RESULT_ERROR_HASH_ALGORITHM,
      VERIFY_SWI_RESULT_ERROR_INVALID_SIGNING_CERT,
      VERIFY_SWI_RESULT_ERROR_INVALID_ROOT_CERT]

/-- `verifySwiAfterFormat` returns `ERROR_INVALID_SIGNING_CERT` only through
`loadSigningCert`: when X509 parsing of the decoded cert succeeds, no later
stage can produce that code. -/
theorem verifySwiAfterFormat_ne_invalid_cert (env : VerifyEnv)
    (sig : SwiSignatureV) (hcp : env.certParses = true) :
    verifySwiAfterFormat env sig ≠ VERIFY_SWI_RESULT_ERROR_INVALID_SIGNING_CERT := by
  obtain ⟨z, sl, cp, rl, cc, so⟩ := env
  dsimp only at hcp
  subst hcp
  simp only [verifySwiAfterFormat, loadSigningCertM, signingCertValidM,
    swiSignatureValidM, getHashAlgoM]
  by_cases hh : sig.hashAlgo = asciiBytes "SHA-256" <;>
    cases rl <;> cases cc <;>
    rcases so with _ | b <;> try cases b
  all_goals
    simp [hh, VERIFY_SWI_RESULT_SUCCESS, VERIFY_SWI_RESULT_ERROR_VERIFICATION,
      VERIFY_SWI_RESULT_ERROR_CERT_MISMATCH, VERIFY_SWI_RESULT_ERROR_HASH_ALGORITHM,
      VERIFY_SWI_RESULT_ERROR_INVALID_SIGNING_CERT,
      VERIFY_SWI_RESULT_ERROR_INVALID_ROOT_CERT]

/-- C6: malformed-record acceptance rule. With the container a zip and the
signature member present, `verifySwi` returns the dedicated
`ERROR_SIGNATURE_FORMAT` outcome iff one of the decoded issuer-certificate,
hash-algorithm or signature fields is empty (equivalently, it proceeds past
the format check iff all three are non-empty); when the member is absent it
returns `ERROR_SIGNATURE_FILE`, a distinct outcome. -/
theorem verifySwi_malformed_record_rule (b64 : List Nat → Option (List Nat))
    (env : VerifyEnv) (lines : List (List Nat))
    (hzip : env.isZip = .ok true) (hsig : env.sigLines = .ok (some lines)) :
    (verifySwiM b64 env = .code VERIFY_SWI_RESULT_ERROR_SIGNATURE_FORMAT ↔
      ¬ ((updateFieldsM b64 lines).cert ≠ [] ∧
         (updateFieldsM b64 lines).hashAlgo ≠ [] ∧
         (updateFieldsM b64 lines).signature ≠ [])) ∧
    (∀ env2 : VerifyEnv, env2.isZip = .ok true → env2.sigLines = .ok none →
      verifySwiM b64 env2 = .code VERIFY_SWI_RESULT_ERROR_SIGNATURE_FILE) ∧
    VERIFY_SWI_RESULT_ERROR_SIGNATURE_FORMAT
      ≠ VERIFY_SWI_RESULT_ERROR_SIGNATURE_FILE := by
  refine ⟨?_, ?_, by decide⟩
  · simp only [verifySwiM, hzip, hsig]
    by_cases hf : verifySignatureFormatM (updateFieldsM b64 lines) = true
    · rw [if_neg (by simp [hf])]
      have hmem := verifySwiAfterFormat_mem env (updateFieldsM b64 lines)
      have hrhs := (verifySignatureFormatM_eq_true _).mp hf
      constructor
      · intro h6
        injection h6 with h6
        rw [h6] at hmem
        simp [VERIFY_SWI_RESULT_ERROR_SIGNATURE_FORMAT] at hmem
      · intro hcon
        exact absurd hrhs hcon
    · rw [if_pos hf]
      constructor
      · intro _
        intro hcon
        exact hf ((verifySignatureFormatM_eq_true _).mpr hcon)
      · intro _
        rfl
  · intro env2 h1 h2
    simp [verifySwiM, h1, h2]

/-- Witness for C6 at a concrete environment whose record has a non-empty
hash algorithm but an empty certificate and signature. -/
theorem verifySwi_malformed_record_rule_witness :
    (verifySwiM (fun _ => none)
        { isZip := .ok true,
          sigLines := .ok (some [asciiBytes "HashAlgorithm:SHA-256"]),
          certParses := true, rootLoads := true, certChains := true,
          streamOutcome := .ok true }
      = .code VERIFY_SWI_RESULT_ERROR_SIGNATURE_FORMAT ↔
      ¬ ((updateFieldsM (fun _ => none) [asciiBytes "HashAlgorithm:SHA-256"]).cert ≠ [] ∧
         (updateFieldsM (fun _ => none) [asciiBytes "HashAlgorithm:SHA-256"]).hashAlgo ≠ [] ∧
         (updateFieldsM (fun _ => none) [asciiBytes "HashAlgorithm:SHA-256"]).signature ≠ [])) ∧
    (∀ env2 : VerifyEnv, env2.isZip = .ok true → env2.sigLines = .ok none →
      verifySwiM (fun _ => none) env2 = .code VERIFY_SWI_RESULT_ERROR_SIGNATURE_FILE) ∧
    VERIFY_SWI_RESULT_ERROR_SIGNATURE_FORMAT
      ≠ VERIFY_SWI_RESULT_ERROR_SIGNATURE_FILE :=
  verifySwi_malformed_record_rule (fun _ => none)
    { isZip := .ok true,
      sigLines := .ok (some [asciiBytes "HashAlgorithm:SHA-256"]),
      certParses := true, rootLoads := true, certChains := true,
      streamOutcome := .ok true }
    [asciiBytes "HashAlgorithm:SHA-256"] rfl rfl

/-- C7 counterexample: a signed container whose `IssuerCert` value is not
valid base64 (the abstract decoder rejects it), with valid non-empty
hash-algorithm and signature fields. The claim says `verifySwi` returns
`ERROR_INVALID_SIGNING_CERT`; the code maps the decode failure to an empty
cert (`base64Decode` returns `""`), so the format check fails first and
`verifySwi` returns `ERROR_SIGNATURE_FORMAT` instead. -/
theorem verifySwi_invalid_cert_encoding_counterexample :
    verifySwiM
      (fun t => if t = asciiBytes "QUJD" then some [65, 66, 67] else none)
      { isZip := .ok true,
        sigLines := .ok (some [asciiBytes "HashAlgorithm:SHA-256",
          asciiBytes "IssuerCert:%%%%", asciiBytes "Signature:QUJD"]),
        certParses := true, rootLoads := true, certChains := true,
        streamOutcome := .ok true }
      = .code VERIFY_SWI_RESULT_ERROR_SIGNATURE_FORMAT ∧
    VERIFY_SWI_RESULT_ERROR_SIGNATURE_FORMAT
      ≠ VERIFY_SWI_RESULT_ERROR_INVALID_SIGNING_CERT := by
  constructor
  · decide
  · decide

/-- C7 (amended): issuer-certificate decoding outcomes. An invalidly encoded
`IssuerCert` value decodes to the empty cert (`base64Decode` maps the decode
failure to `""`), and a container whose decoded cert is empty is reported as
`ERROR_SIGNATURE_FORMAT`; `ERROR_INVALID_SIGNING_CERT` is returned exactly
when the record passes the format check but X509 parsing of the successfully
base64-decoded cert bytes fails (the biconditional excludes that code on
every other path). -/
theorem verifySwi_issuer_cert_outcomes (b64 : List Nat → Option (List Nat))
    (env : VerifyEnv) (lines : List (List Nat))
    (hzip : env.isZip = .ok true) (hsig : env.sigLines = .ok (some lines)) :
    (∀ t, b64 t = none → base64DecodeM b64 t = []) ∧
    ((updateFieldsM b64 lines).cert = [] →
      verifySwiM b64 env = .code VERIFY_SWI_RESULT_ERROR_SIGNATURE_FORMAT) ∧
    (verifySwiM b64 env = .code VERIFY_SWI_RESULT_ERROR_INVALID_SIGNING_CERT ↔
      (verifySignatureFormatM (updateFieldsM b64 lines) = true ∧
        env.certParses = false)) := by
  refine ⟨?_, ?_, ?_⟩
  · intro t h
    simp [base64DecodeM, h]
  · intro hempty
    simp only [verifySwiM, hzip, hsig]
    rw [if_pos]
    intro hf
    exact ((verifySignatureFormatM_eq_true _).mp hf).1 hempty
  · constructor
    · intro h9
      simp only [verifySwiM, hzip, hsig] at h9
      by_cases hf : verifySignatureFormatM (updateFieldsM b64 lines) = true
      · rw [if_neg (by simp [hf])] at h9
        injection h9 with h9
        rcases hcpv : env.certParses with _ | _
        · exact ⟨hf, rfl⟩
        · exact absurd h9 (verifySwiAfterFormat_ne_invalid_cert env _ hcpv)
      · rw [if_pos hf] at h9
        injection h9 with h9
        exact absurd h9 (by decide)
    · rintro ⟨hf, hcp⟩
      simp only [verifySwiM, hzip, hsig]
      rw [if_neg (by simp [hf])]
      simp [verifySwiAfterFormat, loadSigningCertM, hcp]

/-- Witness for C7 at a concrete environment whose record decodes fully but
whose cert bytes fail X509 parsing: the outcome is
`ERROR_INVALID_SIGNING_CERT`. -/
theorem verifySwi_issuer_cert_outcomes_witness :
    verifySwiM
      (fun t => if t = asciiBytes "QUJD" then some [65, 66, 67] else none)
      { isZip := .ok true,
        sigLines := .ok (some [asciiBytes "HashAlgorithm:SHA-256",
          asciiBytes "IssuerCert:QUJD", asciiBytes "Signature:QUJD"]),
        certParses := false, rootLoads := true, certChains := true,
        streamOutcome := .ok true }
      = .code VERIFY_SWI_RESULT_ERROR_INVALID_SIGNING_CERT :=
  (verifySwi_issuer_cert_outcomes
    (fun t => if t = asciiBytes "QUJD" then some [65, 66, 67] else none)
    { isZip := .ok true,
      sigLines := .ok (some [asciiBytes "HashAlgorithm:SHA-256",
        asciiBytes "IssuerCert:QUJD", asciiBytes "Signature:QUJD"]),
      certParses := false, rootLoads := true, certChains := true,
      streamOutcome := .ok true }
    [asciiBytes "HashAlgorithm:SHA-256", asciiBytes "IssuerCert:QUJD",
      asciiBytes "Signature:QUJD"] rfl rfl).2.2.mpr ⟨by decide, rfl⟩

/-- C8 counterexample: the claim says `verifySwi` never raises an exception
to its caller and reports any I/O failure as `ERROR_VERIFICATION`, but its
`except` clauses name only `IOError` and `X509CertException`. When reading
the signature member raises `zipfile.BadZipFile` — a corrupt central
directory behind a file that passes `is_zipfile`, or stored member bytes
failing their recorded CRC-32 during the read — the exception escapes to the
caller instead of any outcome code. -/
theorem verifySwi_badzipfile_counterexample :
    verifySwiM (fun _ => none)
      { isZip := .ok true, sigLines := .badZipFile, certParses := true,
        rootLoads := true, certChains := true, streamOutcome := .ok true }
      = .raised .badZipFile ∧
    ∀ c : Nat, (VerifyOutcome.raised PyExc.badZipFile) ≠ .code c :=
  ⟨rfl, fun _ h => VerifyOutcome.noConfusion h⟩

/-- C8 (amended): verification totality up to `BadZipFile`. On every
behaviour in which reading the signature member does not raise
`zipfile.BadZipFile`, `verifySwi` returns one of the named
`VERIFY_SWI_RESULT` codes and never raises, and an `IOError` at any step
(the zip check, reading the member, the streamed verification) is caught and
reported as `ERROR_VERIFICATION`; a `BadZipFile` from the member read,
however, is not caught and propagates to the caller. -/
theorem verifySwi_total_outcomes (b64 : List Nat → Option (List Nat))
    (env : VerifyEnv) :
    (env.sigLines ≠ .badZipFile → ∃ c, verifySwiM b64 env = .code c ∧
      c ∈ ([0, 3, 4, 5, 6, 7, 8, 9, 10] : List Nat)) ∧
    (env.isZip = .ioError →
      verifySwiM b64 env = .code VERIFY_SWI_RESULT_ERROR_VERIFICATION) ∧
    (env.isZip = .ok true → env.sigLines = .ioError →
      verifySwiM b64 env = .code VERIFY_SWI_RESULT_ERROR_VERIFICATION) ∧
    (∀ lines, env.isZip = .ok true → env.sigLines = .ok (some lines) →
      verifySignatureFormatM (updateFieldsM b64 lines) = true →
      env.certParses = true → env.rootLoads = true → env.certChains = true →
      (updateFieldsM b64 lines).hashAlgo = asciiBytes "SHA-256" →
      env.streamOutcome = .ioError →
      verifySwiM b64 env = .code VERIFY_SWI_RESULT_ERROR_VERIFICATION) ∧
    (env.isZip = .ok true → env.sigLines = .badZipFile →
      verifySwiM b64 env = .raised .badZipFile) := by
  refine ⟨?_, ?_, ?_, ?_, ?_⟩
  · intro hnb
    rcases hz : env.isZip with _ | bz
    · exact ⟨VERIFY_SWI_RESULT_ERROR_VERIFICATION,
        by simp [verifySwiM, hz], by decide⟩
    · cases bz
      · exact ⟨VERIFY_SWI_RESULT_ERROR_NOT_A_SWI,
          by simp [verifySwiM, hz], by decide⟩
      · rcases hs : env.sigLines with _ | _ | ol
        · exact ⟨VERIFY_SWI_RESULT_ERROR_VERIFICATION,
            by simp [verifySwiM, hz, hs], by decide⟩
        · exact absurd hs hnb
        · cases ol with
          | none =>
            exact ⟨VERIFY_SWI_RESULT_ERROR_SIGNATURE_FILE,
              by simp [verifySwiM, hz, hs], by decide⟩
          | some lines =>
            by_cases hf : verifySignatureFormatM (updateFieldsM b64 lines) = true
            · refine ⟨verifySwiAfterFormat env (updateFieldsM b64 lines), ?_, ?_⟩
              · simp only [verifySwiM, hz, hs]
                rw [if_neg (by simp [hf])]
              · have hmem := verifySwiAfterFormat_mem env (updateFieldsM b64 lines)
                simp only [List.mem_cons, List.mem_singleton,
                  List.not_mem_nil] at hmem ⊢
                rcases hmem with h | h | h | h | h | h <;> simp [h]
            · refine ⟨VERIFY_SWI_RESULT_ERROR_SIGNATURE_FORMAT, ?_, by decide⟩
              simp only [verifySwiM, hz, hs]
              rw [if_pos hf]
  · intro h
    simp [verifySwiM, h]
  · intro h1 h2
    simp [verifySwiM, h1, h2]
  · intro lines h1 h2 hf hcp hrl hcc hh hso
    simp only [verifySwiM, h1, h2]
    rw [if_neg (by simp [hf])]
    simp [verifySwiAfterFormat, loadSigningCertM, signingCertValidM,
      swiSignatureValidM, getHashAlgoM, hcp, hrl, hcc, hh, hso,
      VERIFY_SWI_RESULT_SUCCESS, VERIFY_SWI_RESULT_ERROR_VERIFICATION]
  · intro h1 h2
    simp [verifySwiM, h1, h2]

/-- Witness for C8: an `IOError` while opening the container is reported as
`ERROR_VERIFICATION`. -/
theorem verifySwi_total_outcomes_witness :
    verifySwiM (fun _ => none)
      { isZip := .ioError, sigLines := .ok none, certParses := true,
        rootLoads := true, certChains := true, streamOutcome := .ok true }
      = .code VERIFY_SWI_RESULT_ERROR_VERIFICATION :=
  (verifySwi_total_outcomes (fun _ => none)
    { isZip := .ioError, sigLines := .ok none, certParses := true,
      rootLoads := true, certChains := true, streamOutcome := .ok true }).2.1 rfl

/-! ## Theorems: sign (swisignature.py signSwi) -/

theorem char_toNat_lt (c : Char) : Char.toNat c < 2 ^ 32 := by
  have h := UInt32.toNat_lt_size c.val
  have h2 : UInt32.size = 2 ^ 32 := by norm_num [UInt32.size]
  rw [h2] at h
  simpa [Char.toNat] using h

theorem asciiBytes_lt (s : String) : ∀ x ∈ asciiBytes s, x < 2 ^ 32 := by
  intro x hx
  simp only [asciiBytes, List.mem_map] at hx
  obtain ⟨c, _, rfl⟩ := hx
  exact char_toNat_lt c

theorem swiSignatureRepr_ok_of_fits (s : SwiSignatureRecord)
    (h4 : s.crcpadding.length = 4)
    (hfit : (reprHeader s).length + 16 ≤ s.size) :
    swiSignatureRepr s = .ok (reprHeader s ++ List.replicate
      ((s.size : Int) - ((reprHeader s).length : Int) -
        ((crcPaddingField s).length : Int) - 1).toNat 42 ++ [10] ++
      asciiBytes "CRCPadding:") := by
  have hcl := crcPaddingField_length s h4
  have hcond : ¬((s.size : Int) - ((reprHeader s).length : Int) -
      ((crcPaddingField s).length : Int) - 1 < 0) := by
    rw [hcl]; omega
  simp only [swiSignatureRepr]
  rw [if_neg hcond]

theorem swiSignatureRepr_mem_lt (s : SwiSignatureRecord) (r : List Nat)
    (hr : swiSignatureRepr s = .ok r)
    (hh : ∀ x ∈ s.hash, x < 2 ^ 32) (hc : ∀ x ∈ s.cert, x < 2 ^ 32)
    (hsg : ∀ x ∈ s.signature, x < 2 ^ 32) :
    ∀ x ∈ r, x < 2 ^ 32 := by
  simp only [swiSignatureRepr] at hr
  split at hr
  · simp at hr
  · rw [Except.ok.injEq] at hr
    subst hr
    intro x hx
    simp only [reprHeader, List.append_assoc, List.mem_append, List.mem_replicate,
      List.mem_singleton, List.mem_cons, List.not_mem_nil, or_false] at hx
    rcases hx with h | h | h | h | h | h | h | h | h | h | h | h | h | h | h | h
    all_goals first
      | exact asciiBytes_lt _ x h
      | exact hh x h
      | exact hc x h
      | exact hsg x h
      | (subst h; norm_num)
      | (rcases h with ⟨_, rfl⟩; norm_num)

theorem matchingBytes_ok (a b : Nat) (ha : a < 2 ^ 32) (hb : b < 2 ^ 32) :
    matchingBytes a b = some ((List.range 4).map fun i =>
      (crcfix a b >>> (i * 8)) &&& 0xff) ∧
    ((List.range 4).map fun i => (crcfix a b >>> (i * 8)) &&& 0xff).length = 4 := by
  constructor
  · rw [matchingBytes, if_pos ⟨ha, hb⟩]
  · simp

/-- C9: post-sign re-verification. Every `signSwi` call that reaches the point
of writing the signature record over the placeholder (the null signature
exists, the supplied signature is valid base64, and the record fits the
placeholder) writes the record bytes at the member's offset and then branches
solely on the result of the unconditional `verifyswi.verifySwi` call: if that
verification is not `SUCCESS`, `signSwi` raises the distinct
`ERROR_FAIL_VERIFICATION` outcome even though the record bytes are already
written, so sign never reports success on a container it did not
re-verify. -/
theorem signSwi_post_sign_reverify (env : SignEnv)
    (hex : env.sigExists = true) (hb64 : env.sigB64Valid = true)
    (hcert : ∀ x ∈ env.certB64, x < 2 ^ 32)
    (hsigc : ∀ x ∈ env.sigContent, x < 2 ^ 32)
    (hfit : (reprHeader
      { version := SIGN_VERSION, hash := SIGN_HASH,
        cert := env.certB64, signature := env.sigContent,
        crcpadding := [0, 0, 0, 0], size := env.fileSize }).length + 16
      ≤ env.fileSize) :
    ∃ bytes : List Nat,
      signSwiM env = (env.fileBytes.take env.offset ++ bytes ++
          env.fileBytes.drop (env.offset + bytes.length),
        if env.verifyResult = VERIFY_SWI_RESULT_SUCCESS then .ok ()
        else .error (.code SWI_SIGN_RESULT_ERROR_FAIL_VERIFICATION)) := by
  obtain ⟨r0, hrepr0⟩ : ∃ r, swiSignatureRepr
      { version := SIGN_VERSION, hash := SIGN_HASH, cert := env.certB64,
        signature := env.sigContent, crcpadding := [0, 0, 0, 0],
        size := env.fileSize } = .ok r :=
    ⟨_, swiSignatureRepr_ok_of_fits _ rfl hfit⟩
  have hzero : ∀ x ∈ List.replicate env.fileSize 0, x < 2 ^ 32 := by
    intro x hx
    rw [List.eq_of_mem_replicate hx]
    norm_num
  have hcz : crc32 (List.replicate env.fileSize 0) < 2 ^ 32 := crc32_lt _ hzero
  have hrmem := swiSignatureRepr_mem_lt _ _ hrepr0 (asciiBytes_lt "SHA-256")
    hcert hsigc
  have hcr : crc32 r0 < 2 ^ 32 := crc32_lt _ hrmem
  have hmb := (matchingBytes_ok _ _ hcz hcr).1
  obtain ⟨r1, hrepr1⟩ : ∃ r, swiSignatureRepr
      { version := SIGN_VERSION, hash := SIGN_HASH, cert := env.certB64,
        signature := env.sigContent,
        crcpadding := (List.range 4).map fun i =>
          (crcfix (crc32 (List.replicate env.fileSize 0)) (crc32 r0) >>> (i * 8))
            &&& 0xff,
        size := env.fileSize } = .ok r :=
    ⟨_, swiSignatureRepr_ok_of_fits _ (by simp) (by
      rw [show reprHeader
          { version := SIGN_VERSION, hash := SIGN_HASH, cert := env.certB64,
            signature := env.sigContent,
            crcpadding := (List.range 4).map fun i =>
              (crcfix (crc32 (List.replicate env.fileSize 0)) (crc32 r0)
                >>> (i * 8)) &&& 0xff,
            size := env.fileSize }
          = reprHeader
          { version := SIGN_VERSION, hash := SIGN_HASH, cert := env.certB64,
            signature := env.sigContent, crcpadding := [0, 0, 0, 0],
            size := env.fileSize } from rfl]
      exact hfit)⟩
  have hgb : swiSignatureGetBytes
      { version := SIGN_VERSION, hash := SIGN_HASH, cert := env.certB64,
        signature := env.sigContent,
        crcpadding := (List.range 4).map fun i =>
          (crcfix (crc32 (List.replicate env.fileSize 0)) (crc32 r0) >>> (i * 8))
            &&& 0xff,
        size := env.fileSize }
      = .ok (r1 ++ ((List.range 4).map fun i =>
          (crcfix (crc32 (List.replicate env.fileSize 0)) (crc32 r0) >>> (i * 8))
            &&& 0xff).map (fun b => b % 256)) := by
    simp only [swiSignatureGetBytes, hrepr1]
  refine ⟨r1 ++ ((List.range 4).map fun i =>
      (crcfix (crc32 (List.replicate env.fileSize 0)) (crc32 r0) >>> (i * 8))
        &&& 0xff).map (fun b => b % 256), ?_⟩
  simp only [signSwiM, hex, hb64, hrepr0, hmb, hgb]
  by_cases hv : env.verifyResult = VERIFY_SWI_RESULT_SUCCESS <;> simp [hv]

/-- Witness for C9 at a concrete environment: placeholder of size 100 at
offset 3 in a 20-byte container, empty certificate and signature text,
successful re-verification. -/
theorem signSwi_post_sign_reverify_witness :
    ∃ bytes : List Nat,
      signSwiM
        { sigExists := true, fileBytes := List.replicate 20 1,
          offset := 3, fileSize := 100, sigContent := [], sigB64Valid := true,
          certB64 := [], verifyResult := 0 }
        = ((List.replicate 20 1 : List Nat).take 3 ++ bytes ++
            (List.replicate 20 1 : List Nat).drop (3 + bytes.length),
          if (0 : Nat) = VERIFY_SWI_RESULT_SUCCESS then .ok ()
          else .error (.code SWI_SIGN_RESULT_ERROR_FAIL_VERIFICATION)) :=
  signSwi_post_sign_reverify
    { sigExists := true, fileBytes := List.replicate 20 1, offset := 3,
      fileSize := 100, sigContent := [], sigB64Valid := true, certB64 := [],
      verifyResult := 0 }
    rfl rfl (by decide) (by decide) (by decide)

end SwiTools
